import Mathlib

/-!
Verification of the data-aggregation and comparison engine of the
keywordsSentimentsAnalyzer repository (src/utils/data_processor.py, with
identical copies of the two core functions inlined in src/main.py, and the
classifier record shapes of src/utils/api_client.py).

The embedding models Python dynamic values with an inductive `PyVal`
(strings, numbers as rationals, lists, None), Python dicts as association
lists with first-match lookup, and translates `generate_insights` and
`compare_with_webpage` line by line from the source.
-/

namespace KSA

/-- Python-style dynamic value: a string, a number (int or float, modelled
as a rational), a list, or None.  These are the value shapes the core
functions touch. -/
inductive PyVal : Type where
  | vstr (s : String)
  | vnum (q : ℚ)
  | vlist (xs : List PyVal)
  | vnone

mutual

/-- Boolean equality on dynamic values. -/
def PyVal.beq : PyVal → PyVal → Bool
  | .vstr a, .vstr b => a == b
  | .vnum a, .vnum b => a == b
  | .vlist as, .vlist bs => PyVal.beqList as bs
  | .vnone, .vnone => true
  | _, _ => false

/-- Boolean equality on lists of dynamic values. -/
def PyVal.beqList : List PyVal → List PyVal → Bool
  | [], [] => true
  | a :: as, b :: bs => PyVal.beq a b && PyVal.beqList as bs
  | _, _ => false

end

mutual

theorem PyVal.beq_iff_eq : ∀ a b : PyVal, PyVal.beq a b = true ↔ a = b
  | .vstr a, .vstr b => by simp [PyVal.beq]
  | .vnum a, .vnum b => by simp [PyVal.beq]
  | .vlist as, .vlist bs => by
      simp only [PyVal.beq, PyVal.beqList_iff_eq as bs]
      exact ⟨fun h => by rw [h], fun h => by injection h⟩
  | .vnone, .vnone => by simp [PyVal.beq]
  | .vstr _, .vnum _ => by simp [PyVal.beq]
  | .vstr _, .vlist _ => by simp [PyVal.beq]
  | .vstr _, .vnone => by simp [PyVal.beq]
  | .vnum _, .vstr _ => by simp [PyVal.beq]
  | .vnum _, .vlist _ => by simp [PyVal.beq]
  | .vnum _, .vnone => by simp [PyVal.beq]
  | .vlist _, .vstr _ => by simp [PyVal.beq]
  | .vlist _, .vnum _ => by simp [PyVal.beq]
  | .vlist _, .vnone => by simp [PyVal.beq]
  | .vnone, .vstr _ => by simp [PyVal.beq]
  | .vnone, .vnum _ => by simp [PyVal.beq]
  | .vnone, .vlist _ => by simp [PyVal.beq]

theorem PyVal.beqList_iff_eq : ∀ as bs : List PyVal, PyVal.beqList as bs = true ↔ as = bs
  | [], [] => by simp [PyVal.beqList]
  | a :: as, b :: bs => by
      simp only [PyVal.beqList, Bool.and_eq_true, PyVal.beq_iff_eq a b,
        PyVal.beqList_iff_eq as bs, List.cons.injEq]
  | [], _ :: _ => by simp [PyVal.beqList]
  | _ :: _, [] => by simp [PyVal.beqList]

end

instance : DecidableEq PyVal := fun a b =>
  decidable_of_iff (PyVal.beq a b = true) (PyVal.beq_iff_eq a b)

/-- A Python dict as an association list from string keys to values
(keys are unique in Python; lookup takes the first match). -/
abbrev PyDict : Type := List (String × PyVal)

/-- `d.get(k, dflt)`: first value bound to `k`, else the default. -/
def pyGet (d : PyDict) (k : String) (dflt : PyVal) : PyVal :=
  match d.find? (fun p => p.1 == k) with
  | some p => p.2
  | none => dflt

/-- The string content of a value in a position where the Python source
calls string methods on it (`.lower()`, `.strip()`, `.split()`); a
non-string there would raise in Python, which is outside the model, so
theorems that depend on such fields hypothesise `vstr`. -/
def pyStrOf : PyVal → String
  | PyVal.vstr s => s
  | _ => ""

/-- Elements produced by Python iteration over a value: a list yields its
elements, a string yields its one-character substrings, anything else
raises TypeError in Python (outside the model; theorems hypothesise
iterable shapes where it matters). -/
def iterElems : PyVal → List PyVal
  | PyVal.vlist xs => xs
  | PyVal.vstr s => s.toList.map (fun c => PyVal.vstr (String.mk [c]))
  | _ => []

/-- `isinstance(v, (int, float))`: true exactly for numeric values. -/
def isNumericVal : PyVal → Bool
  | PyVal.vnum _ => true
  | _ => false

/-- Whether a value is a Python list (the shape `item["emotions"]` has in
every well-formed enriched record). -/
def isListVal : PyVal → Bool
  | PyVal.vlist _ => true
  | _ => false

/-- ASCII-style lowercasing of a character list (`str.lower()` on the
ASCII fragment the tool works with; the source is locale-naive). -/
def lowerL (s : List Char) : List Char := s.map Char.toLower

/-- Whether `p` is an initial segment of `s` (helper for Python substring
tests). -/
def startsWithL : List Char → List Char → Bool
  | [], _ => true
  | _ :: _, [] => false
  | a :: p, b :: s => a == b && startsWithL p s

/-- Python `needle in hay` on strings: substring containment (the empty
needle is contained in everything). -/
def containsL (needle : List Char) : List Char → Bool
  | [] => needle.isEmpty
  | b :: s => startsWithL needle (b :: s) || containsL needle s

/-- Non-overlapping occurrence scan for a non-empty needle: `skip`
characters are still being consumed by the previous match. -/
def countOccAux (needle : List Char) : Nat → List Char → Nat
  | _ + 1, [] => 0
  | 0, [] => 0
  | s + 1, _ :: t => countOccAux needle s t
  | 0, c :: t =>
      if startsWithL needle (c :: t) then
        1 + countOccAux needle (needle.length - 1) t
      else
        countOccAux needle 0 t

/-- Python `hay.count(needle)`: non-overlapping substring occurrences; an
empty needle counts `len(hay) + 1` as in Python. -/
def pyCount (needle hay : List Char) : Nat :=
  if needle.isEmpty then hay.length + 1 else countOccAux needle 0 hay

/-- Number of maximal non-whitespace runs, i.e. `len(s.split())` in
Python; `prevIn` records whether the previous character was inside a
word. -/
def countWordsAux : Bool → List Char → Nat
  | _, [] => 0
  | prevIn, c :: t =>
      if c.isWhitespace then countWordsAux false t
      else (if prevIn then 0 else 1) + countWordsAux true t

/-- `len(s.split())`: the number of whitespace-separated words of `s`. -/
def pyWordCount (s : String) : Nat := countWordsAux false s.toList

/-- Truthiness of `s.strip()`: `s` contains a non-whitespace character. -/
def hasNonWs (s : String) : Bool := s.toList.any (fun c => !c.isWhitespace)

/-- Ordering used on (value, count) pairs: descending by count.  This is
the key function `lambda x: x[1]` with `reverse=True` of the source's
`sorted` call. -/
def countsDescR (a b : PyVal × Nat) : Prop := b.2 ≤ a.2

instance : DecidableRel countsDescR := fun a b => Nat.decLe b.2 a.2

instance : IsTotal (PyVal × Nat) countsDescR := ⟨fun a b => Nat.le_total b.2 a.2⟩

instance : IsTrans (PyVal × Nat) countsDescR := ⟨fun _ _ _ h1 h2 => Nat.le_trans h2 h1⟩

/-- `pd.Series(xs).value_counts().to_dict()`: occurrence counts of the
distinct observed values, with missing values (None) dropped, as pandas
does by default.  pandas returns the counts sorted descending; its order
among equal counts is library-internal and unspecified, so the stable
insertion sort here is a fixed deterministic stand-in for it. -/
def value_counts (xs : List PyVal) : List (PyVal × Nat) :=
  let obs := xs.filter (fun v => v ≠ PyVal.vnone)
  List.insertionSort countsDescR ((obs.dedup).map (fun v => (v, obs.count v)))

/-- `[item.get("sentiment") for item in enriched_data]` (`.get` with no
default returns None for a missing key). -/
def sentimentsOf (enriched_data : List PyDict) : List PyVal :=
  enriched_data.map (fun item => pyGet item "sentiment" PyVal.vnone)

/-- `[emotion for item in enriched_data for emotion in item.get("emotions", [])]`. -/
def allEmotions (enriched_data : List PyDict) : List PyVal :=
  enriched_data.flatMap (fun item => iterElems (pyGet item "emotions" (PyVal.vlist [])))

/-- `[item.get("sentiment_score", 0) for item in enriched_data if
isinstance(item.get("sentiment_score", 0), (int, float))]`: the `.get`
default 0 applies before the isinstance test, so a record with no
sentiment_score key contributes a 0 entry, while a present non-numeric
value is filtered out. -/
def sentiment_scores (enriched_data : List PyDict) : List ℚ :=
  enriched_data.filterMap (fun item =>
    match pyGet item "sentiment_score" (PyVal.vnum 0) with
    | PyVal.vnum q => some q
    | _ => none)

/-- `sum(qs) / len(qs) if qs else 0`. -/
def meanOrZero (qs : List ℚ) : ℚ :=
  if qs = [] then 0 else qs.sum / (qs.length : ℚ)

/-- The successful result shape of `generate_insights`. -/
structure Insights where
  sentiment_distribution : List (PyVal × Nat)
  top_emotions : List (PyVal × Nat)
  average_sentiment_score : ℚ
  total_positions : Nat
  deriving DecidableEq

/-- `generate_insights` either returns the error dict
`{"error": msg}` or an insights dict. -/
inductive InsightsResult where
  | error (msg : String)
  | ok (insights : Insights)
  deriving DecidableEq

/-- The insights of a non-error result. -/
def resultInsights : InsightsResult → Option Insights
  | .ok i => some i
  | .error _ => none

/-- The average_sentiment_score of a non-error result. -/
def resultAverage (r : InsightsResult) : Option ℚ :=
  (resultInsights r).map Insights.average_sentiment_score

/-- The insights dict built by generate_insights for non-empty input
(src/utils/data_processor.py lines 27-50). -/
def insightsOf (enriched_data : List PyDict) : Insights :=
  { sentiment_distribution := value_counts (sentimentsOf enriched_data)
    top_emotions :=
      (List.insertionSort countsDescR (value_counts (allEmotions enriched_data))).take 3
    average_sentiment_score := meanOrZero (sentiment_scores enriched_data)
    total_positions := enriched_data.length }

/-- DataProcessor.generate_insights (src/utils/data_processor.py lines
22-50; src/main.py carries an identical inline copy). -/
def generate_insights (enriched_data : List PyDict) : InsightsResult :=
  if enriched_data = [] then
    InsightsResult.error "No data available for insights generation"
  else
    InsightsResult.ok (insightsOf enriched_data)

/-- The successful result shape of `compare_with_webpage`. -/
structure Comparison where
  serp_average_sentiment_score : ℚ
  webpage_sentiment_score : PyVal
  serp_primary_emotions : List PyVal
  webpage_primary_emotion : PyVal
  serp_tones : List PyVal
  webpage_tone : PyVal
  serp_keyword_density : ℚ
  webpage_keyword_density : ℚ
  deriving DecidableEq

/-- `compare_with_webpage` either returns the error dict
`{"error": msg}` or a comparison dict. -/
inductive ComparisonResult where
  | error (msg : String)
  | ok (c : Comparison)
  deriving DecidableEq

/-- The comparison of a non-error result. -/
def resultComparison : ComparisonResult → Option Comparison
  | .ok c => some c
  | .error _ => none

/-- The source's serp_keyword_density expression (data_processor.py lines
70-73): `sum(keyword.lower() in item.get("title", "").lower() for item in
enriched_positions) / len(enriched_positions)` — a sum of 0/1 indicators
over the records, divided by the record count. -/
def serp_keyword_density_of (enriched_positions : List PyDict) (keyword : String) : ℚ :=
  (((enriched_positions.map (fun item =>
      (containsL (lowerL keyword.toList)
        (lowerL (pyStrOf (pyGet item "title" (PyVal.vstr ""))).toList)).toNat)).sum : ℕ) : ℚ)
    / (enriched_positions.length : ℚ)

/-- The source's webpage_keyword_density expression (data_processor.py
lines 76-82): if the content has non-whitespace characters,
`content.lower().count(keyword.lower()) / len(content.split())`, else 0. -/
def webpage_keyword_density_of (wd : PyDict) (keyword : String) : ℚ :=
  if hasNonWs (pyStrOf (pyGet wd "content" (PyVal.vstr ""))) then
    ((pyCount (lowerL keyword.toList)
        (lowerL (pyStrOf (pyGet wd "content" (PyVal.vstr ""))).toList)) : ℚ)
      / ((pyWordCount (pyStrOf (pyGet wd "content" (PyVal.vstr "")))) : ℚ)
  else 0

/-- The comparison dict built by compare_with_webpage once the guard has
passed (data_processor.py lines 57-98).  The serp score list is the same
comprehension the source duplicates from `generate_insights`, so the
embedding reuses `sentiment_scores`. -/
def comparisonOf (enriched_positions : List PyDict) (wd : PyDict) (keyword : String) :
    Comparison :=
  { serp_average_sentiment_score := meanOrZero (sentiment_scores enriched_positions)
    webpage_sentiment_score := pyGet wd "sentiment_score" (PyVal.vnum 0)
    serp_primary_emotions := enriched_positions.map
      (fun item => pyGet item "primary_emotion" (PyVal.vstr "none"))
    webpage_primary_emotion := pyGet wd "primary_emotion" (PyVal.vstr "none")
    serp_tones := enriched_positions.map
      (fun item => pyGet item "tone" (PyVal.vstr "none"))
    webpage_tone := pyGet wd "tone" (PyVal.vstr "none")
    serp_keyword_density := serp_keyword_density_of enriched_positions keyword
    webpage_keyword_density := webpage_keyword_density_of wd keyword }

/-- DataProcessor.compare_with_webpage (src/utils/data_processor.py lines
52-98; src/main.py carries an identical inline copy).  `webpage_analysis`
is an `Option` because callers can pass Python None; `not webpage_analysis`
is true for None and for the empty dict alike, which the
`webpage_analysis.getD [] = []` test captures. -/
def compare_with_webpage (enriched_positions : List PyDict)
    (webpage_analysis : Option PyDict) (keyword : String) : ComparisonResult :=
  if enriched_positions = [] ∨ webpage_analysis.getD [] = [] then
    ComparisonResult.error "Insufficient data for comparison"
  else
    ComparisonResult.ok (comparisonOf enriched_positions (webpage_analysis.getD []) keyword)

/-- The classifier's default record for empty input text
(src/utils/api_client.py lines 35-46): sentiment "neutral", numeric fields
0, sequences empty. -/
def neutralDefaultRecord : PyDict :=
  [("sentiment", PyVal.vstr "neutral"),
   ("sentiment_score", PyVal.vnum 0),
   ("primary_emotion", PyVal.vstr "none"),
   ("emotions", PyVal.vlist []),
   ("emotional_intensity", PyVal.vnum 0),
   ("intent", PyVal.vstr "none"),
   ("tone", PyVal.vstr "none"),
   ("key_psychological_triggers", PyVal.vlist []),
   ("brief_explanation", PyVal.vstr "No text provided")]

/-- The classifier's failure record (src/utils/api_client.py lines
140-151): sentiment "error", sentiment_score 0 (a numeric value), the
other fields defaulted. -/
def errorRecord (msg : String) : PyDict :=
  [("sentiment", PyVal.vstr "error"),
   ("sentiment_score", PyVal.vnum 0),
   ("primary_emotion", PyVal.vstr "none"),
   ("emotions", PyVal.vlist []),
   ("emotional_intensity", PyVal.vnum 0),
   ("intent", PyVal.vstr "none"),
   ("tone", PyVal.vstr "none"),
   ("key_psychological_triggers", PyVal.vlist []),
   ("brief_explanation", PyVal.vstr msg)]

/-- The spec's words for the average (spec §4.1): "filter to records whose
`sentiment_score` is a genuine numeric value (exclude strings, missing
values, or any non-numeric sentinel ...)".  Named differently from the
source embedding `sentiment_scores` so the two can be compared: here a
record with no sentiment_score key contributes nothing. -/
def specNumericScores (enriched_data : List PyDict) : List ℚ :=
  enriched_data.filterMap (fun item =>
    match pyGet item "sentiment_score" PyVal.vnone with
    | PyVal.vnum q => some q
    | _ => none)

/-- The spec's average rule applied to `specNumericScores`. -/
def specAverageSentimentScore (enriched_data : List PyDict) : ℚ :=
  meanOrZero (specNumericScores enriched_data)

/-- The amended score-selection rule that the code actually implements: a
record with a present numeric sentiment_score contributes its value, a
record with no sentiment_score key contributes the `.get` default 0, and a
record with a present non-numeric sentiment_score contributes nothing. -/
def amendedScores (enriched_data : List PyDict) : List ℚ :=
  enriched_data.filterMap (fun item =>
    match item.find? (fun p => p.1 == "sentiment_score") with
    | none => some 0
    | some p =>
      match p.2 with
      | PyVal.vnum q => some q
      | _ => none)

/-- The three-title serp list of the spec's keyword-density scenario. -/
def demoTitles : List PyDict :=
  [[("title", PyVal.vstr "Best Digital Marketing Tips")],
   [("title", PyVal.vstr "Marketing 101")],
   [("title", PyVal.vstr "Unrelated Topic")]]

/-- The webpage record of the spec's webpage-density scenario. -/
def demoWebpage : PyDict :=
  [("content", PyVal.vstr "marketing marketing strategy guide")]

/-- A webpage record whose extracted content is empty. -/
def emptyContentWebpage : PyDict := [("content", PyVal.vstr "")]

/-! ## Helper lemmas -/

/-- The sum of 0/1 indicators of a Boolean predicate over a list is the
number of elements satisfying it. -/
theorem sum_map_toNat_eq_countP {α : Type} (p : α → Bool) (l : List α) :
    (l.map (fun a => (p a).toNat)).sum = l.countP p := by
  induction l with
  | nil => simp
  | cons x l ih =>
    by_cases h : p x
    · simp [List.countP_cons, h, ih]
      omega
    · simp [List.countP_cons, h, ih]

/-- A character list with a non-whitespace character contains at least one
word. -/
theorem one_le_countWordsAux (cs : List Char)
    (h : cs.any (fun c => !c.isWhitespace) = true) : 1 ≤ countWordsAux false cs := by
  induction cs with
  | nil => simp at h
  | cons c t ih =>
    by_cases hw : c.isWhitespace
    · have ht : t.any (fun c => !c.isWhitespace) = true := by
        simpa [List.any_cons, hw] using h
      simpa [countWordsAux, hw] using ih ht
    · simp [countWordsAux, hw]

/-- A string with a non-whitespace character splits into at least one
word, so the webpage-density division is never by zero. -/
theorem one_le_pyWordCount (s : String) (h : hasNonWs s = true) : 1 ≤ pyWordCount s :=
  one_le_countWordsAux s.toList (by simpa [hasNonWs] using h)

/-- The counts recorded by `value_counts` add up to the number of
non-None observations. -/
theorem value_counts_snd_sum (xs : List PyVal) :
    ((value_counts xs).map Prod.snd).sum = (xs.filter (fun v => v ≠ PyVal.vnone)).length := by
  unfold value_counts
  rw [((List.perm_insertionSort countsDescR _).map Prod.snd).sum_eq, List.map_map]
  exact List.sum_map_count_dedup_eq_length _

/-- `value_counts` has one entry per distinct non-None observation. -/
theorem value_counts_length (xs : List PyVal) :
    (value_counts xs).length = (xs.filter (fun v => v ≠ PyVal.vnone)).dedup.length := by
  unfold value_counts
  rw [(List.perm_insertionSort countsDescR _).length_eq, List.length_map]

/-- Every non-None value occurring in the input appears in `value_counts`
with its occurrence count. -/
theorem mem_value_counts {xs : List PyVal} {v : PyVal} (hv : v ≠ PyVal.vnone) (hm : v ∈ xs) :
    (v, (xs.filter (fun v => v ≠ PyVal.vnone)).count v) ∈ value_counts xs := by
  unfold value_counts
  rw [(List.perm_insertionSort countsDescR _).mem_iff]
  refine List.mem_map.mpr ⟨v, ?_, rfl⟩
  rw [List.mem_dedup, List.mem_filter]
  exact ⟨hm, by simpa using hv⟩

/-- generate_insights on non-empty input returns the insights dict. -/
theorem generate_insights_ok {ed : List PyDict} (h : ed ≠ []) :
    generate_insights ed = InsightsResult.ok (insightsOf ed) := by
  unfold generate_insights
  rw [if_neg h]

/-- Inversion for a successful comparison: the guard passed and the value
is the comparison dict. -/
theorem compare_ok_inv {ps : List PyDict} {w : Option PyDict} {kw : String} {c : Comparison}
    (h : compare_with_webpage ps w kw = ComparisonResult.ok c) :
    c = comparisonOf ps (w.getD []) kw := by
  unfold compare_with_webpage at h
  by_cases hc : ps = [] ∨ w.getD [] = []
  · rw [if_pos hc] at h
    cases h
  · rw [if_neg hc] at h
    exact (ComparisonResult.ok.inj h).symm

/-! ## Claim theorems -/

/-- C3: for every non-empty list of enriched records in which every record
carries a sentiment label, the counts in the sentiment_distribution
returned by generate_insights sum to total_positions, which is the length
of the input list. -/
theorem C3_distribution_sums_to_total (ps : List PyDict) (hne : ps ≠ [])
    (hs : ∀ r ∈ ps, pyGet r "sentiment" PyVal.vnone ≠ PyVal.vnone) :
    ∃ i, generate_insights ps = InsightsResult.ok i ∧
      (i.sentiment_distribution.map Prod.snd).sum = i.total_positions ∧
      i.total_positions = ps.length := by
  refine ⟨insightsOf ps, generate_insights_ok hne, ?_, rfl⟩
  show ((value_counts (sentimentsOf ps)).map Prod.snd).sum = ps.length
  rw [value_counts_snd_sum]
  have hfilter : (sentimentsOf ps).filter (fun v => v ≠ PyVal.vnone) = sentimentsOf ps := by
    apply List.filter_eq_self.mpr
    intro v hv
    rcases List.mem_map.mp hv with ⟨r, hr, rfl⟩
    simpa using hs r hr
  rw [hfilter, sentimentsOf, List.length_map]

/-- Witness for C3 at a concrete two-record input. -/
theorem C3_witness :
    (([[("sentiment", PyVal.vstr "positive")], [("sentiment", PyVal.vstr "neutral")]] :
        List PyDict) ≠ []) ∧
    (∀ r ∈ ([[("sentiment", PyVal.vstr "positive")], [("sentiment", PyVal.vstr "neutral")]] :
        List PyDict), pyGet r "sentiment" PyVal.vnone ≠ PyVal.vnone) ∧
    ∃ i, generate_insights
        [[("sentiment", PyVal.vstr "positive")], [("sentiment", PyVal.vstr "neutral")]]
        = InsightsResult.ok i ∧
      (i.sentiment_distribution.map Prod.snd).sum = i.total_positions ∧
      i.total_positions = 2 :=
  ⟨by decide, by decide,
    C3_distribution_sums_to_total
      [[("sentiment", PyVal.vstr "positive")], [("sentiment", PyVal.vstr "neutral")]]
      (by decide) (by decide)⟩

/-- C4: generate_insights on the empty list returns the structured error
signal (not a zero-valued Insights), and on the single classifier-default
neutral record returns total_positions 1 and average_sentiment_score 0. -/
theorem C4_empty_error_and_neutral_singleton :
    generate_insights [] = InsightsResult.error "No data available for insights generation" ∧
    ∃ i, generate_insights [neutralDefaultRecord] = InsightsResult.ok i ∧
      i.total_positions = 1 ∧ i.average_sentiment_score = 0 := by
  refine ⟨rfl, insightsOf [neutralDefaultRecord],
    generate_insights_ok (by simp), rfl, ?_⟩
  show meanOrZero (sentiment_scores [neutralDefaultRecord]) = 0
  have h : sentiment_scores [neutralDefaultRecord] = [0] := rfl
  rw [h, meanOrZero, if_neg (by simp)]
  norm_num

/-- C5: compare_with_webpage with an empty serp list signals the
insufficient-data error for every webpage argument and keyword, and with a
null webpage record it signals the same error for every non-empty serp
list; no comparison value is produced in either case. -/
theorem C5_insufficient_data_guard :
    (∀ (w : Option PyDict) (kw : String),
      compare_with_webpage [] w kw
        = ComparisonResult.error "Insufficient data for comparison") ∧
    (∀ (ps : List PyDict) (kw : String), ps ≠ [] →
      compare_with_webpage ps none kw
        = ComparisonResult.error "Insufficient data for comparison") := by
  constructor
  · intro w kw
    unfold compare_with_webpage
    rw [if_pos (Or.inl rfl)]
  · intro ps kw _
    unfold compare_with_webpage
    have hc : ps = [] ∨ (none : Option PyDict).getD [] = [] := Or.inr rfl
    rw [if_pos hc]

/-- Witness for C5 at concrete inputs: an empty serp list with a non-empty
webpage record, and a non-empty serp list with a null webpage record. -/
theorem C5_witness :
    compare_with_webpage [] (some [("content", PyVal.vstr "x")]) "marketing"
      = ComparisonResult.error "Insufficient data for comparison" ∧
    (([[("title", PyVal.vstr "t")]] : List PyDict) ≠ []) ∧
    compare_with_webpage [[("title", PyVal.vstr "t")]] none "marketing"
      = ComparisonResult.error "Insufficient data for comparison" :=
  ⟨C5_insufficient_data_guard.1 (some [("content", PyVal.vstr "x")]) "marketing",
   by decide,
   C5_insufficient_data_guard.2 [[("title", PyVal.vstr "t")]] "marketing" (by decide)⟩

/-- C10: a present but empty webpage record (the empty dict) is falsy in
the guard just like a null one, so compare_with_webpage signals the
insufficient-data error even for a non-empty serp list and a non-empty
keyword; no comparison is computed from it. -/
theorem C10_empty_webpage_record_guard (ps : List PyDict) (kw : String)
    (_hps : ps ≠ []) (_hkw : kw ≠ "") :
    compare_with_webpage ps (some []) kw
      = ComparisonResult.error "Insufficient data for comparison" := by
  unfold compare_with_webpage
  have hc : ps = [] ∨ (some ([] : PyDict)).getD [] = [] := Or.inr rfl
  rw [if_pos hc]

/-- Witness for C10 at a concrete non-empty serp list and keyword. -/
theorem C10_witness :
    (([[("title", PyVal.vstr "Marketing 101")]] : List PyDict) ≠ []) ∧
    ("marketing" ≠ "") ∧
    compare_with_webpage [[("title", PyVal.vstr "Marketing 101")]] (some []) "marketing"
      = ComparisonResult.error "Insufficient data for comparison" :=
  ⟨by decide, by decide,
   C10_empty_webpage_record_guard [[("title", PyVal.vstr "Marketing 101")]] "marketing"
     (by decide) (by decide)⟩

/-- C6: for every successful comparison, serp_keyword_density equals the
number of records whose title contains the keyword as a case-insensitive
substring (each record contributing 0 or 1, however often the keyword
occurs in its title) divided by the number of records; and on the
three-title scenario with keyword "marketing" the density is 2/3. -/
theorem C6_serp_keyword_density :
    (∀ (ps : List PyDict) (w : Option PyDict) (kw : String) (c : Comparison),
      compare_with_webpage ps w kw = ComparisonResult.ok c →
      c.serp_keyword_density =
        ((ps.countP (fun item => containsL (lowerL kw.toList)
            (lowerL (pyStrOf (pyGet item "title" (PyVal.vstr ""))).toList))) : ℚ)
          / (ps.length : ℚ)) ∧
    (∃ c, compare_with_webpage demoTitles (some emptyContentWebpage) "marketing"
        = ComparisonResult.ok c ∧
      c.serp_keyword_density = 2/3) := by
  constructor
  · intro ps w kw c h
    rw [compare_ok_inv h]
    show serp_keyword_density_of ps kw = _
    unfold serp_keyword_density_of
    rw [sum_map_toNat_eq_countP]
  · refine ⟨comparisonOf demoTitles emptyContentWebpage "marketing", ?_, ?_⟩
    · have hc : ¬(demoTitles = [] ∨ (some emptyContentWebpage).getD [] = []) := by decide
      unfold compare_with_webpage
      rw [if_neg hc]
      rfl
    · show serp_keyword_density_of demoTitles "marketing" = 2/3
      unfold serp_keyword_density_of
      have hsum : (demoTitles.map (fun item =>
          (containsL (lowerL "marketing".toList)
            (lowerL (pyStrOf (pyGet item "title" (PyVal.vstr ""))).toList)).toNat)).sum = 2 := by
        decide
      have hlen : demoTitles.length = 3 := by decide
      rw [hsum, hlen]
      norm_num

/-- Witness for C6: the general density formula applied to the scenario
input itself. -/
theorem C6_witness :
    compare_with_webpage demoTitles (some emptyContentWebpage) "marketing"
      = ComparisonResult.ok (comparisonOf demoTitles emptyContentWebpage "marketing") ∧
    (comparisonOf demoTitles emptyContentWebpage "marketing").serp_keyword_density =
      ((demoTitles.countP (fun item => containsL (lowerL "marketing".toList)
          (lowerL (pyStrOf (pyGet item "title" (PyVal.vstr ""))).toList))) : ℚ)
        / (demoTitles.length : ℚ) := by
  have hcmp : compare_with_webpage demoTitles (some emptyContentWebpage) "marketing"
      = ComparisonResult.ok (comparisonOf demoTitles emptyContentWebpage "marketing") := by
    have hc : ¬(demoTitles = [] ∨ (some emptyContentWebpage).getD [] = []) := by decide
    unfold compare_with_webpage
    rw [if_neg hc]
    rfl
  exact ⟨hcmp, C6_serp_keyword_density.1 demoTitles (some emptyContentWebpage) "marketing" _ hcmp⟩

/-- C7: for every successful comparison, if the webpage content is empty
or all-whitespace the webpage_keyword_density is 0 (no division error),
and otherwise the word count is at least 1 (the division-by-zero branch is
unreachable) and the density is the case-insensitive occurrence count of
the keyword in the content divided by the whitespace-token word count; the
spec's two content scenarios give densities 0 and 1/2. -/
theorem C7_webpage_keyword_density :
    (∀ (ps : List PyDict) (w : Option PyDict) (kw : String) (c : Comparison),
      compare_with_webpage ps w kw = ComparisonResult.ok c →
      (hasNonWs (pyStrOf (pyGet (w.getD []) "content" (PyVal.vstr ""))) = false →
        c.webpage_keyword_density = 0) ∧
      (hasNonWs (pyStrOf (pyGet (w.getD []) "content" (PyVal.vstr ""))) = true →
        1 ≤ pyWordCount (pyStrOf (pyGet (w.getD []) "content" (PyVal.vstr ""))) ∧
        c.webpage_keyword_density =
          ((pyCount (lowerL kw.toList)
              (lowerL (pyStrOf (pyGet (w.getD []) "content" (PyVal.vstr ""))).toList)) : ℚ)
            / ((pyWordCount (pyStrOf (pyGet (w.getD []) "content" (PyVal.vstr "")))) : ℚ))) ∧
    (∃ c, compare_with_webpage demoTitles (some emptyContentWebpage) "marketing"
        = ComparisonResult.ok c ∧ c.webpage_keyword_density = 0) ∧
    (∃ c, compare_with_webpage demoTitles (some demoWebpage) "marketing"
        = ComparisonResult.ok c ∧ c.webpage_keyword_density = 1/2) := by
  refine ⟨?_, ?_, ?_⟩
  · intro ps w kw c h
    rw [compare_ok_inv h]
    show (_ → webpage_keyword_density_of (w.getD []) kw = 0) ∧
      (_ → _ ∧ webpage_keyword_density_of (w.getD []) kw = _)
    constructor
    · intro hws
      unfold webpage_keyword_density_of
      rw [if_neg (by rw [hws]; exact Bool.false_ne_true)]
    · intro hws
      refine ⟨one_le_pyWordCount _ hws, ?_⟩
      unfold webpage_keyword_density_of
      rw [if_pos hws]
  · refine ⟨comparisonOf demoTitles emptyContentWebpage "marketing", ?_, ?_⟩
    · have hc : ¬(demoTitles = [] ∨ (some emptyContentWebpage).getD [] = []) := by decide
      unfold compare_with_webpage
      rw [if_neg hc]
      rfl
    · show webpage_keyword_density_of emptyContentWebpage "marketing" = 0
      decide
  · refine ⟨comparisonOf demoTitles demoWebpage "marketing", ?_, ?_⟩
    · have hc : ¬(demoTitles = [] ∨ (some demoWebpage).getD [] = []) := by decide
      unfold compare_with_webpage
      rw [if_neg hc]
      rfl
    · show webpage_keyword_density_of demoWebpage "marketing" = 1/2
      unfold webpage_keyword_density_of
      rw [if_pos (by decide)]
      have h1 : pyCount (lowerL "marketing".toList)
          (lowerL (pyStrOf (pyGet demoWebpage "content" (PyVal.vstr ""))).toList) = 2 := by
        decide
      have h2 : pyWordCount (pyStrOf (pyGet demoWebpage "content" (PyVal.vstr ""))) = 4 := by
        decide
      rw [h1, h2]
      norm_num

/-- Witness for C7: the general density dichotomy applied to the non-empty
content scenario input. -/
theorem C7_witness :
    compare_with_webpage demoTitles (some demoWebpage) "marketing"
      = ComparisonResult.ok (comparisonOf demoTitles demoWebpage "marketing") ∧
    hasNonWs (pyStrOf (pyGet ((some demoWebpage).getD []) "content" (PyVal.vstr ""))) = true ∧
    (1 ≤ pyWordCount (pyStrOf (pyGet ((some demoWebpage).getD []) "content" (PyVal.vstr ""))) ∧
      (comparisonOf demoTitles demoWebpage "marketing").webpage_keyword_density =
        ((pyCount (lowerL "marketing".toList)
            (lowerL (pyStrOf (pyGet ((some demoWebpage).getD [])
              "content" (PyVal.vstr ""))).toList)) : ℚ)
          / ((pyWordCount (pyStrOf (pyGet ((some demoWebpage).getD [])
              "content" (PyVal.vstr "")))) : ℚ)) := by
  have hcmp : compare_with_webpage demoTitles (some demoWebpage) "marketing"
      = ComparisonResult.ok (comparisonOf demoTitles demoWebpage "marketing") := by
    have hc : ¬(demoTitles = [] ∨ (some demoWebpage).getD [] = []) := by decide
    unfold compare_with_webpage
    rw [if_neg hc]
    rfl
  exact ⟨hcmp, by decide,
    (C7_webpage_keyword_density.1 demoTitles (some demoWebpage) "marketing" _ hcmp).2 (by decide)⟩

/-- C8: for every non-empty input whose emotions carry no missing value,
top_emotions has length min(3, number of distinct emotion labels across
all records), is sorted descending by occurrence count, and is the same
sequence in any two successful results for the same input. -/
theorem C8_top_emotions (ps : List PyDict) (hne : ps ≠ [])
    (_hshape : ∀ r ∈ ps, isListVal (pyGet r "emotions" (PyVal.vlist [])) = true)
    (hno : PyVal.vnone ∉ allEmotions ps) :
    ∃ i, generate_insights ps = InsightsResult.ok i ∧
      i.top_emotions.length = min 3 (allEmotions ps).dedup.length ∧
      List.Sorted countsDescR i.top_emotions ∧
      (∀ i', generate_insights ps = InsightsResult.ok i' →
        i'.top_emotions = i.top_emotions) := by
  refine ⟨insightsOf ps, generate_insights_ok hne, ?_, ?_, ?_⟩
  · show ((List.insertionSort countsDescR (value_counts (allEmotions ps))).take 3).length = _
    rw [List.length_take, (List.perm_insertionSort countsDescR _).length_eq,
      value_counts_length]
    have hfilter : (allEmotions ps).filter (fun v => v ≠ PyVal.vnone) = allEmotions ps := by
      apply List.filter_eq_self.mpr
      intro v hv
      rw [decide_eq_true_eq]
      intro heq
      exact hno (heq ▸ hv)
    rw [hfilter]
  · exact List.Pairwise.sublist (List.take_sublist 3 _)
      (List.sorted_insertionSort countsDescR _)
  · intro i' h'
    rw [generate_insights_ok hne] at h'
    rw [← InsightsResult.ok.inj h']

/-- Witness for C8 at a concrete two-record input with two distinct
emotion labels. -/
theorem C8_witness :
    (([[("emotions", PyVal.vlist [PyVal.vstr "joy", PyVal.vstr "trust"])],
       [("emotions", PyVal.vlist [PyVal.vstr "joy"])]] : List PyDict) ≠ []) ∧
    (∀ r ∈ ([[("emotions", PyVal.vlist [PyVal.vstr "joy", PyVal.vstr "trust"])],
       [("emotions", PyVal.vlist [PyVal.vstr "joy"])]] : List PyDict),
      isListVal (pyGet r "emotions" (PyVal.vlist [])) = true) ∧
    PyVal.vnone ∉ allEmotions
      [[("emotions", PyVal.vlist [PyVal.vstr "joy", PyVal.vstr "trust"])],
       [("emotions", PyVal.vlist [PyVal.vstr "joy"])]] ∧
    ∃ i, generate_insights
        [[("emotions", PyVal.vlist [PyVal.vstr "joy", PyVal.vstr "trust"])],
         [("emotions", PyVal.vlist [PyVal.vstr "joy"])]] = InsightsResult.ok i ∧
      i.top_emotions.length = min 3 (allEmotions
        [[("emotions", PyVal.vlist [PyVal.vstr "joy", PyVal.vstr "trust"])],
         [("emotions", PyVal.vlist [PyVal.vstr "joy"])]]).dedup.length ∧
      List.Sorted countsDescR i.top_emotions ∧
      (∀ i', generate_insights
          [[("emotions", PyVal.vlist [PyVal.vstr "joy", PyVal.vstr "trust"])],
           [("emotions", PyVal.vlist [PyVal.vstr "joy"])]] = InsightsResult.ok i' →
        i'.top_emotions = i.top_emotions) :=
  ⟨by decide, by decide, by decide,
    C8_top_emotions
      [[("emotions", PyVal.vlist [PyVal.vstr "joy", PyVal.vstr "trust"])],
       [("emotions", PyVal.vlist [PyVal.vstr "joy"])]] (by decide) (by decide) (by decide)⟩

/-- C9: for every successful comparison, serp_primary_emotions and
serp_tones are order-preserving projections with one element per input
record: position n holds record n's primary_emotion (resp. tone), with
the "none" sentinel as the default for a missing field. -/
theorem C9_passthrough_projections (ps : List PyDict) (w : Option PyDict) (kw : String)
    (c : Comparison) (h : compare_with_webpage ps w kw = ComparisonResult.ok c) :
    c.serp_primary_emotions.length = ps.length ∧
    c.serp_tones.length = ps.length ∧
    (∀ n : ℕ, c.serp_primary_emotions[n]? =
      (ps[n]?).map (fun item => pyGet item "primary_emotion" (PyVal.vstr "none"))) ∧
    (∀ n : ℕ, c.serp_tones[n]? =
      (ps[n]?).map (fun item => pyGet item "tone" (PyVal.vstr "none"))) := by
  rw [compare_ok_inv h]
  exact ⟨by simp [comparisonOf], by simp [comparisonOf],
    fun n => by simp [comparisonOf], fun n => by simp [comparisonOf]⟩

/-- Witness for C9: the projection laws applied to the three-record
scenario input. -/
theorem C9_witness :
    compare_with_webpage demoTitles (some demoWebpage) "marketing"
      = ComparisonResult.ok (comparisonOf demoTitles demoWebpage "marketing") ∧
    ((comparisonOf demoTitles demoWebpage "marketing").serp_primary_emotions.length
        = demoTitles.length ∧
      (comparisonOf demoTitles demoWebpage "marketing").serp_tones.length
        = demoTitles.length ∧
      (∀ n : ℕ, (comparisonOf demoTitles demoWebpage "marketing").serp_primary_emotions[n]? =
        (demoTitles[n]?).map (fun item => pyGet item "primary_emotion" (PyVal.vstr "none"))) ∧
      (∀ n : ℕ, (comparisonOf demoTitles demoWebpage "marketing").serp_tones[n]? =
        (demoTitles[n]?).map (fun item => pyGet item "tone" (PyVal.vstr "none")))) := by
  have hcmp : compare_with_webpage demoTitles (some demoWebpage) "marketing"
      = ComparisonResult.ok (comparisonOf demoTitles demoWebpage "marketing") := by
    have hc : ¬(demoTitles = [] ∨ (some demoWebpage).getD [] = []) := by decide
    unfold compare_with_webpage
    rw [if_neg hc]
    rfl
  exact ⟨hcmp, C9_passthrough_projections demoTitles (some demoWebpage) "marketing" _ hcmp⟩

/-- Counterexample to C1: with one positive record of score 1 and one
classifier error record, the error record's numeric score 0 IS in the
averaged list, so the average is 1/2 and not the 1 that excluding the
error record's score would give. -/
theorem C1_counterexample :
    sentiment_scores
        [[("sentiment", PyVal.vstr "positive"), ("sentiment_score", PyVal.vnum 1)],
         errorRecord "boom"] = [1, 0] ∧
    resultAverage (generate_insights
        [[("sentiment", PyVal.vstr "positive"), ("sentiment_score", PyVal.vnum 1)],
         errorRecord "boom"]) = some (1/2) ∧
    meanOrZero [1] = 1 ∧
    ((1 : ℚ)/2 ≠ 1) := by
  refine ⟨rfl, ?_, ?_, by norm_num⟩
  · rw [generate_insights_ok (by decide)]
    show some (meanOrZero (sentiment_scores
      [[("sentiment", PyVal.vstr "positive"), ("sentiment_score", PyVal.vnum 1)],
       errorRecord "boom"])) = _
    have h : sentiment_scores
        [[("sentiment", PyVal.vstr "positive"), ("sentiment_score", PyVal.vnum 1)],
         errorRecord "boom"] = [1, 0] := rfl
    rw [h]
    unfold meanOrZero
    rw [if_neg (by simp)]
    norm_num [List.sum_cons, List.sum_nil]
  · unfold meanOrZero
    rw [if_neg (by simp)]
    norm_num

/-- C1 as amended: an error-labelled record counts in total_positions and
in the sentiment_distribution, and — since the classifier's error record
carries the numeric score 0 — its score is also included in the averaged
list (the label "error" is not special-cased anywhere). -/
theorem C1_amended_error_record (ps : List PyDict) (msg : String) :
    ∃ i, generate_insights (ps ++ [errorRecord msg]) = InsightsResult.ok i ∧
      i.total_positions = ps.length + 1 ∧
      (PyVal.vstr "error", (sentimentsOf ps).count (PyVal.vstr "error") + 1)
        ∈ i.sentiment_distribution ∧
      sentiment_scores (ps ++ [errorRecord msg]) = sentiment_scores ps ++ [0] := by
  have happ : ps ++ [errorRecord msg] ≠ [] := by simp
  refine ⟨insightsOf _, generate_insights_ok happ, ?_, ?_, ?_⟩
  · show (ps ++ [errorRecord msg]).length = ps.length + 1
    simp
  · show (PyVal.vstr "error", _) ∈ value_counts (sentimentsOf (ps ++ [errorRecord msg]))
    have hsent : sentimentsOf (ps ++ [errorRecord msg])
        = sentimentsOf ps ++ [PyVal.vstr "error"] := by
      unfold sentimentsOf
      rw [List.map_append]
      rfl
    rw [hsent]
    have hcount : ((sentimentsOf ps ++ [PyVal.vstr "error"]).filter
        (fun v => v ≠ PyVal.vnone)).count (PyVal.vstr "error")
        = (sentimentsOf ps).count (PyVal.vstr "error") + 1 := by
      rw [List.count_filter (by decide), List.count_append]
      simp
    rw [← hcount]
    exact mem_value_counts (by decide) (by simp)
  · unfold sentiment_scores
    rw [List.filterMap_append]
    rfl

/-- Counterexample to C2: a record with no sentiment_score key is not
excluded — the `.get` default 0 passes the isinstance filter, so with one
score-1 record and one empty record the code averages [1, 0] to 1/2,
while the spec's numeric-only mean over the present scores is 1. -/
theorem C2_counterexample :
    resultAverage (generate_insights [[("sentiment_score", PyVal.vnum 1)], []])
      = some (1/2) ∧
    specAverageSentimentScore [[("sentiment_score", PyVal.vnum 1)], []] = 1 ∧
    ((1 : ℚ)/2 ≠ 1) := by
  refine ⟨?_, ?_, by norm_num⟩
  · rw [generate_insights_ok (by decide)]
    show some (meanOrZero (sentiment_scores [[("sentiment_score", PyVal.vnum 1)], []])) = _
    have h : sentiment_scores [[("sentiment_score", PyVal.vnum 1)], []] = [1, 0] := rfl
    rw [h]
    unfold meanOrZero
    rw [if_neg (by simp)]
    norm_num [List.sum_cons, List.sum_nil]
  · show meanOrZero (specNumericScores [[("sentiment_score", PyVal.vnum 1)], []]) = 1
    have h : specNumericScores [[("sentiment_score", PyVal.vnum 1)], []] = [1] := rfl
    rw [h]
    unfold meanOrZero
    rw [if_neg (by simp)]
    norm_num

/-- C2 as amended: the average over every list equals the mean of the
amended score selection — present numeric scores by value, records missing
the key as 0, present non-numeric scores excluded from sum and divisor —
and is 0 when that selection is empty. -/
theorem C2_amended_average (ps : List PyDict) (hne : ps ≠ []) :
    ∃ i, generate_insights ps = InsightsResult.ok i ∧
      i.average_sentiment_score = meanOrZero (amendedScores ps) := by
  refine ⟨insightsOf ps, generate_insights_ok hne, ?_⟩
  show meanOrZero (sentiment_scores ps) = meanOrZero (amendedScores ps)
  congr 1
  unfold sentiment_scores amendedScores
  apply List.filterMap_congr
  intro item _
  cases hfind : item.find? (fun p => p.1 == "sentiment_score") with
  | none => simp [pyGet, hfind]
  | some p => cases hp : p.2 <;> simp [pyGet, hfind, hp]

/-- Witness for the amended C2 at a concrete input with a non-numeric
score and a missing score. -/
theorem C2_witness :
    (([[("sentiment_score", PyVal.vstr "n/a")], []] : List PyDict) ≠ []) ∧
    ∃ i, generate_insights [[("sentiment_score", PyVal.vstr "n/a")], []]
        = InsightsResult.ok i ∧
      i.average_sentiment_score = meanOrZero (amendedScores
        [[("sentiment_score", PyVal.vstr "n/a")], []]) :=
  ⟨by decide, C2_amended_average [[("sentiment_score", PyVal.vstr "n/a")], []] (by decide)⟩

end KSA
